import Mathlib

/-!
Shallow embedding of the ci-bot configuration engine.

Sources embedded:
* `src/plugins/config.go` — the plugin `Configuration` data model, its
  defaulting pass (`setDefaults`, `ConfigUpdater.SetDefaults`), the
  regexp/duration compilation pass (`compileRegexpsAndDurations`) and the
  validation passes (`validatePlugins`, `validateExternalPlugins`,
  `Configuration.Validate`).
* `src/flagutil/flagutil.go` (package `config` portion) — `JobConfig`,
  `Config`, `Config.mergeJobConfig`, the job-config directory walk inside
  `loadConfig`, and `Load`.

Modelling conventions:
* Go maps become association lists (`List (String × α)`); lookup of a missing
  key yields the zero value (`[]` for slices), exactly as a Go map read does.
  Go's map iteration order is unspecified; the list order stands for one
  admissible iteration order.  All theorems proved below are either
  order-independent or explicitly about the embedded order.
* Pointers (`*int`, `*bool`) become `Option`; a `nil` pointer is `none`.
* `regexp.Compile` and `time.ParseDuration` are external library functions;
  they are passed in as oracles `rc : String → Except String Unit`
  (error message or success) and `pd : String → Except String Int`
  (`time.Duration` is an `int64` nanosecond count).
* Functions that mutate their receiver in Go return the updated value here;
  functions returning `error` return `Except String _` or `Option String`
  (`none` = `nil` error).
-/

namespace CiBot

/-- `strings.Join(parts, sep)` from the Go standard library. -/
def goJoin (sep : String) : List String → String
  | [] => ""
  | [x] => x
  | x :: xs => x ++ sep ++ goJoin sep xs

/-- Reading `m[k]` from a Go map whose value type has zero value `d`. -/
def mapGet (m : List (String × α)) (k : String) (d : α) : α :=
  match m with
  | [] => d
  | (k', v) :: rest => if k' = k then v else mapGet rest k d

/-- Writing `m[k] = v` into a Go map: replaces the existing entry or appends. -/
def goMapInsert (m : List (String × α)) (k : String) (v : α) : List (String × α) :=
  match m with
  | [] => [(k, v)]
  | (k', v') :: rest => if k' = k then (k, v) :: rest else (k', v') :: goMapInsert rest k v

/-- Characters before the first `/`. -/
def takeUntilSlash : List Char → List Char
  | [] => []
  | c :: cs => if c = '/' then [] else c :: takeUntilSlash cs

/-- `strings.Split(s, "/")[0]`: the part of `s` before the first `/`
(or all of `s` when it has no `/`). -/
def beforeSlash (s : String) : String :=
  ⟨takeUntilSlash s.data⟩

/-- `strings.Contains(s, "/")`. -/
def hasSlash (s : String) : Bool :=
  s.data.contains '/'

/-- `fmt.Sprintf("%v", xs)` for a Go `[]string`: elements joined by single
spaces inside square brackets. -/
def goFmtStrSlice (xs : List String) : String :=
  "[" ++ goJoin " " xs ++ "]"

/-- `fmt.Sprintf("%q", s)` for the strings appearing in this development:
the string surrounded by double quotes.  (Go additionally escapes quotes,
backslashes and non-printable characters inside `s`; the configuration
strings reasoned about here contain none, so plain quoting is faithful.) -/
def goQuote (s : String) : String :=
  "\"" ++ s ++ "\""

/-- `a` occurs as a contiguous substring of `b` (on the character lists). -/
def StrIn (a b : String) : Prop := a.data <:+: b.data

instance (a b : String) : Decidable (StrIn a b) :=
  inferInstanceAs (Decidable (a.data <:+: b.data))

/-- Whether an `Except` is a success, as a `Bool`. -/
def exceptOk : Except String α → Bool
  | .ok _ => true
  | .error _ => false

/-- The error carried by an `Except`, if any. -/
def exceptErr : Except String α → Option String
  | .ok _ => none
  | .error e => some e

/-! ## Data model of `src/plugins/config.go` -/

/-- `Blockade` from `src/plugins/config.go`. -/
structure Blockade where
  Repos : List String
  BlockRegexps : List String
  ExceptionRegexps : List String
  Explanation : String
deriving DecidableEq

/-- `Blunderbuss` from `src/plugins/config.go`; `*int` fields are `Option Int`. -/
structure Blunderbuss where
  ReviewerCount : Option Int
  MaxReviewerCount : Int
  FileWeightCount : Option Int
  ExcludeApprovers : Bool
deriving DecidableEq

/-- `RequireMatchingLabel` from `src/plugins/config.go`.  The compiled field
`Re` is modelled as the pattern it was compiled from (`none` when not yet
compiled); `GracePeriodDuration` is the parsed nanosecond count. -/
structure RequireMatchingLabel where
  Org : String
  Repo : String
  Branch : String
  PRs : Bool
  Issues : Bool
  Regexp : String
  Re : Option String
  MissingLabel : String
  MissingComment : String
  GracePeriod : String
  GracePeriodDuration : Int
deriving DecidableEq

/-- `Milestone` from `src/plugins/config.go`. -/
structure Milestone where
  MaintainersID : Int
  MaintainersTeam : String
  MaintainersFriendlyName : String
deriving DecidableEq

/-- `Lgtm` from `src/plugins/config.go`. -/
structure Lgtm where
  Repos : List String
  ReviewActsAsLgtm : Bool
  StoreTreeHash : Bool
  StickyLgtmTeam : String
deriving DecidableEq

/-- `Label` from `src/plugins/config.go`. -/
structure Label where
  AdditionalLabels : List String
deriving DecidableEq

/-- `Heart` from `src/plugins/config.go`. -/
structure Heart where
  Adorees : List String
  CommentRegexp : String
  CommentRe : Option String
deriving DecidableEq

/-- `Golint` from `src/plugins/config.go`. -/
structure Golint where
  MinimumConfidence : Option Float

/-- `ConfigMapSpec` from `src/plugins/config.go`; `Namespaces` is the derived
resolved list. -/
structure ConfigMapSpec where
  Name : String
  Key : String
  Namespace : String
  AdditionalNamespaces : List String
  Namespaces : List String
deriving DecidableEq

/-- `ConfigUpdater` from `src/plugins/config.go`. -/
structure ConfigUpdater where
  Maps : List (String × ConfigMapSpec)
  ConfigFile : String
  PluginFile : String
deriving DecidableEq

/-- `CherryPickUnapproved` from `src/plugins/config.go`. -/
structure CherryPickUnapproved where
  BranchRegexp : String
  BranchRe : Option String
  Comment : String
deriving DecidableEq

/-- `Owners` from `src/plugins/config.go`. -/
structure Owners where
  MDYAMLRepos : List String
  SkipCollaborators : List String
  LabelsBlackList : List String
deriving DecidableEq

/-- `SigMention` from `src/plugins/config.go`. -/
structure SigMention where
  Regexp : String
  Re : Option String
deriving DecidableEq

/-- `Trigger` from `src/plugins/config.go`. -/
structure Trigger where
  Repos : List String
  TrustedOrg : String
  JoinOrgURL : String
  OnlyOrgMembers : Bool
  IgnoreOkToTest : Bool
deriving DecidableEq

/-- `ExternalPlugin` from `src/plugins/config.go`. -/
structure ExternalPlugin where
  Name : String
  Endpoint : String
  Events : List String
deriving DecidableEq

/-- `Approve` from `src/plugins/config.go`. -/
structure Approve where
  Repos : List String
  IssueRequired : Bool
  DeprecatedImplicitSelfApprove : Option Bool
  RequireSelfApproval : Option Bool
  LgtmActsAsApprove : Bool
  DeprecatedReviewActsAsApprove : Option Bool
  IgnoreReviewState : Option Bool
deriving DecidableEq

/-- `Configuration` from `src/plugins/config.go` (commented-out fields of the
source — `Cat`, `RequireSIG`, `Slack`, `Size`, `Welcome` — are absent there
and hence absent here). -/
structure Configuration where
  Plugins : List (String × List String)
  ExternalPlugins : List (String × List ExternalPlugin)
  Owners : Owners
  Approve : List Approve
  UseDeprecatedSelfApprove : Bool
  UseDeprecatedReviewApprove : Bool
  Blockades : List Blockade
  Blunderbuss : Blunderbuss
  CherryPickUnapproved : CherryPickUnapproved
  ConfigUpdater : ConfigUpdater
  Golint : Option Golint
  Heart : Heart
  Label : Option Label
  Lgtm : List Lgtm
  RepoMilestone : List (String × Milestone)
  RequireMatchingLabel : List RequireMatchingLabel
  SigMention : SigMention
  Triggers : List Trigger

/-- `const defaultBlunderbussReviewerCount = 2`. -/
def defaultBlunderbussReviewerCount : Int := 2

/-! ## Defaulting pass -/

/-- The body of the namespace-resolution loop in `ConfigUpdater.SetDefaults`:
`spec.Namespaces = append([]string{spec.Namespace}, spec.AdditionalNamespaces...)`. -/
def resolveSpec (s : ConfigMapSpec) : ConfigMapSpec :=
  { s with Namespaces := s.Namespace :: s.AdditionalNamespaces }

/-- `ConfigUpdater.SetDefaults` from `src/plugins/config.go`: when `Maps` is
empty it is derived from the deprecated `ConfigFile`/`PluginFile` fields
(themselves defaulted to `"prow/config.json"`/`"prow/plugins.yaml"`), the map
literal being built by inserting the `cf` entry and then the `pf` entry;
afterwards every entry's `Namespaces` is resolved.  The deprecation warnings
are logging only. -/
def ConfigUpdater.SetDefaults (c : ConfigUpdater) : ConfigUpdater :=
  let m :=
    if c.Maps.length = 0 then
      let cf := if c.ConfigFile = "" then "prow/config.json" else c.ConfigFile
      let pf := if c.PluginFile = "" then "prow/plugins.yaml" else c.PluginFile
      goMapInsert (goMapInsert [] cf ⟨"config", "", "", [], []⟩) pf ⟨"plugins", "", "", [], []⟩
    else c.Maps
  { c with Maps := m.map (fun kv => (kv.1, resolveSpec kv.2)) }

/-- Body of the `ExternalPlugins` defaulting loop in
`Configuration.setDefaults`: an entry with empty `Endpoint` gets
`fmt.Sprintf("http://%s", p.Name)`. -/
def defaultEndpoint (p : ExternalPlugin) : ExternalPlugin :=
  if p.Endpoint ≠ "" then p else { p with Endpoint := "http://" ++ p.Name }

/-- Blunderbuss defaulting step of `Configuration.setDefaults`. -/
def defaultBlunderbuss (b : Blunderbuss) : Blunderbuss :=
  if b.ReviewerCount = none ∧ b.FileWeightCount = none then
    { b with ReviewerCount := some defaultBlunderbussReviewerCount }
  else b

/-- Body of the `Triggers` defaulting loop in `Configuration.setDefaults`. -/
def defaultTrigger (t : Trigger) : Trigger :=
  if t.TrustedOrg = "" ∨ t.JoinOrgURL ≠ "" then t
  else { t with JoinOrgURL := "https://github.com/orgs/" ++ t.TrustedOrg ++ "/people" }

/-- The default `SigMention.Regexp` pattern from `Configuration.setDefaults`. -/
def defaultSigMentionPattern : String :=
  "(?m)@kubernetes/sig-([\\w-]*)-(misc|test-failures|bugs|feature-requests|proposals|pr-reviews|api-reviews)"

/-- The default `CherryPickUnapproved.Comment` from `Configuration.setDefaults`. -/
def defaultCherryPickComment : String :=
  "This PR is not for the master branch but does not have the `cherry-pick-approved`  label. Adding the `do-not-merge/cherry-pick-not-approved`  label.\n\nTo approve the cherry-pick, please assign the patch release manager for the release branch by writing `/assign @username` in a comment when ready.\n\nThe list of patch release managers for each release can be found [here](https://git.k8s.io/sig-release/release-managers.md)."

/-- The `RepoMilestone` loop of `Configuration.setDefaults`.  In the Go source
the loop is `for _, milestone := range c.RepoMilestone`, so `milestone` is a
copy of each map value; the assignment
`milestone.MaintainersFriendlyName = "SIG Chairs/TLs"` writes only to that
loop-local copy and is then discarded — `c.RepoMilestone` is unchanged. -/
def defaultRepoMilestone (m : List (String × Milestone)) : List (String × Milestone) :=
  m

/-- Body of the `RequireMatchingLabel` defaulting loop in
`Configuration.setDefaults`. -/
def defaultGracePeriod (r : RequireMatchingLabel) : RequireMatchingLabel :=
  if r.GracePeriod = "" then { r with GracePeriod := "5s" } else r

/-- SigMention defaulting step of `Configuration.setDefaults`. -/
def defaultSigMention (s : SigMention) : SigMention :=
  if s.Regexp = "" then { s with Regexp := defaultSigMentionPattern } else s

/-- CherryPickUnapproved defaulting steps of `Configuration.setDefaults`:
default the branch regexp, then the comment, each only when empty. -/
def defaultCherryPick (cp : CherryPickUnapproved) : CherryPickUnapproved :=
  let cp := if cp.BranchRegexp = "" then { cp with BranchRegexp := "^release-.*$" } else cp
  if cp.Comment = "" then { cp with Comment := defaultCherryPickComment } else cp

/-- `Configuration.setDefaults` from `src/plugins/config.go`.  The Go function
mutates `c` field by field; each step touches a distinct field, so the whole
pass is the simultaneous record update below. -/
def Configuration.setDefaults (c : Configuration) : Configuration :=
  { c with
    ConfigUpdater := c.ConfigUpdater.SetDefaults
    ExternalPlugins := c.ExternalPlugins.map (fun kv => (kv.1, kv.2.map defaultEndpoint))
    Blunderbuss := defaultBlunderbuss c.Blunderbuss
    Triggers := c.Triggers.map defaultTrigger
    SigMention := defaultSigMention c.SigMention
    RepoMilestone := defaultRepoMilestone c.RepoMilestone
    CherryPickUnapproved := defaultCherryPick c.CherryPickUnapproved
    RequireMatchingLabel := c.RequireMatchingLabel.map defaultGracePeriod }

/-! ## Compilation pass -/

/-- The `RequireMatchingLabel` loop of `compileRegexpsAndDurations`: for each
entry, compile its `Regexp` (failure wrapped as
`failed to compile label regexp: %q, error: %v`), then parse its
`GracePeriod` (failure wrapped as
`failed to compile grace period duration: %q, error: %v`), aborting on the
first failure. -/
def compileRMLs (rc : String → Except String Unit) (pd : String → Except String Int) :
    List RequireMatchingLabel → Except String (List RequireMatchingLabel)
  | [] => .ok []
  | r :: rs =>
    match rc r.Regexp with
    | .error e => .error ("failed to compile label regexp: " ++ goQuote r.Regexp ++ ", error: " ++ e)
    | .ok _ =>
      match pd r.GracePeriod with
      | .error e =>
        .error ("failed to compile grace period duration: " ++ goQuote r.GracePeriod ++ ", error: " ++ e)
      | .ok d =>
        match compileRMLs rc pd rs with
        | .error e => .error e
        | .ok rest => .ok ({ r with Re := some r.Regexp, GracePeriodDuration := d } :: rest)

/-- `compileRegexpsAndDurations` from `src/plugins/config.go`, parameterised
by the `regexp.Compile` oracle `rc` and the `time.ParseDuration` oracle `pd`.
Failures of the three top-level patterns return the oracle's error verbatim
(`return err` in the source); `RequireMatchingLabel` failures are wrapped. -/
def compileRegexpsAndDurations (rc : String → Except String Unit)
    (pd : String → Except String Int) (pc : Configuration) : Except String Configuration :=
  match rc pc.SigMention.Regexp with
  | .error e => .error e
  | .ok _ =>
    match rc pc.CherryPickUnapproved.BranchRegexp with
    | .error e => .error e
    | .ok _ =>
      match rc pc.Heart.CommentRegexp with
      | .error e => .error e
      | .ok _ =>
        match compileRMLs rc pd pc.RequireMatchingLabel with
        | .error e => .error e
        | .ok rs =>
          .ok { pc with
                SigMention := { pc.SigMention with Re := some pc.SigMention.Regexp }
                CherryPickUnapproved :=
                  { pc.CherryPickUnapproved with BranchRe := some pc.CherryPickUnapproved.BranchRegexp }
                Heart := { pc.Heart with CommentRe := some pc.Heart.CommentRegexp }
                RequireMatchingLabel := rs }

/-! ## Validation passes -/

/-- `findDuplicatedPluginConfig` from `src/plugins/config.go`: for every
`repoPlugin` in `repoConfig`, one copy of `repoPlugin` is appended per equal
element of `orgConfig`. -/
def findDuplicatedPluginConfig : List String → List String → List String
  | [], _ => []
  | rp :: rest, orgConfig =>
    (orgConfig.filter (fun op => rp == op)).map (fun _ => rp)
      ++ findDuplicatedPluginConfig rest orgConfig

/-- First loop of `validatePlugins`: an `unknown plugin: %s` error for every
plugin name not present in the registry.  The registry (`pluginHelp`) is
populated by self-registering plugins outside this repository's sources and is
passed in as the read-only membership predicate `reg`. -/
def unknownPluginErrors (reg : String → Bool) (plugins : List (String × List String)) :
    List String :=
  (plugins.map (fun pr =>
    (pr.2.filter (fun p => !reg p)).map (fun p => "unknown plugin: " ++ p))).flatten

/-- Second loop of `validatePlugins`: for every scope containing `/`, compare
its list with the list of the scope before the `/`. -/
def duplicatedPluginErrors (plugins : List (String × List String)) : List String :=
  plugins.filterMap (fun pr =>
    if hasSlash pr.1 then
      let org := beforeSlash pr.1
      let dupes := findDuplicatedPluginConfig pr.2 (mapGet plugins org [])
      if dupes.length > 0 then
        some ("plugins " ++ goFmtStrSlice dupes ++ " are duplicated for " ++ pr.1 ++ " and " ++ org)
      else none
    else none)

/-- `validatePlugins` from `src/plugins/config.go`.  `Modelled from the spec:`
the plugin registry `pluginHelp` (a package-level map populated at process
start by self-registering automations, not part of `src/`) is injected as the
read-only lookup `reg`, as §9 of the spec prescribes.  Both error loops append
to a single slice which is joined with `"\n\t"` under the header
`" invalid plugin configuration:"` (note the leading space in the source's
format string). -/
def validatePlugins (reg : String → Bool) (plugins : List (String × List String)) :
    Option String :=
  let errs := unknownPluginErrors reg plugins ++ duplicatedPluginErrors plugins
  if errs.length > 0 then
    some (" invalid plugin configuration:\n\t" ++ goJoin "\n\t" errs)
  else none

/-- The duplicate lines collected by `validateExternalPlugins`. -/
def duplicatedExternalPluginErrors (pluginMap : List (String × List ExternalPlugin)) :
    List String :=
  pluginMap.filterMap (fun pr =>
    if hasSlash pr.1 then
      let org := beforeSlash pr.1
      let orgConfig := (mapGet pluginMap org []).map (fun p => p.Name)
      let repoConfig := pr.2.map (fun p => p.Name)
      let dupes := findDuplicatedPluginConfig repoConfig orgConfig
      if dupes.length > 0 then
        some ("external plugins " ++ goFmtStrSlice dupes ++ " are duplicated for "
          ++ pr.1 ++ " and " ++ org)
      else none
    else none)

/-- `validateExternalPlugins` from `src/plugins/config.go` (its header has no
leading space, unlike `validatePlugins`). -/
def validateExternalPlugins (pluginMap : List (String × List ExternalPlugin)) :
    Option String :=
  let errs := duplicatedExternalPluginErrors pluginMap
  if errs.length > 0 then
    some ("invalid plugin configuration:\n\t" ++ goJoin "\n\t" errs)
  else none

/-- `Configuration.Validate` from `src/plugins/config.go`: defaulting, then
compilation (fail-fast), then `validatePlugins` (returned alone on failure),
then `validateExternalPlugins`.  On success the mutated configuration is the
`.ok` payload. -/
def Configuration.Validate (reg : String → Bool) (rc : String → Except String Unit)
    (pd : String → Except String Int) (c : Configuration) : Except String Configuration :=
  let c := c.setDefaults
  match compileRegexpsAndDurations rc pd c with
  | .error e => .error e
  | .ok c =>
    match validatePlugins reg c.Plugins with
    | some e => .error e
    | none =>
      match validateExternalPlugins c.ExternalPlugins with
      | some e => .error e
      | none => .ok c

/-! ## Spec-side description of the compilation order (for the refinement
theorem about `compileRegexpsAndDurations`).  These definitions follow the
spec's words in §4.3, not the source. -/

/-- One unit of work of the compilation pass: a top-level regexp (failure
passed through verbatim), a `RequireMatchingLabel` regexp (failure wrapped,
naming the pattern and the label-regexp field), or a grace-period duration
(failure wrapped, naming the duration string and the grace-period field). -/
inductive CompileItem where
  | topRe (pat : String)
  | labelRe (pat : String)
  | graceDur (s : String)

/-- The raw strings the spec says the pass compiles, in the spec's order:
`SigMention.Regexp`, `CherryPickUnapproved.BranchRegexp`,
`Heart.CommentRegexp`, then per `RequireMatchingLabel` entry its regexp
followed by its grace period. -/
def compileItems (pc : Configuration) : List CompileItem :=
  [.topRe pc.SigMention.Regexp, .topRe pc.CherryPickUnapproved.BranchRegexp,
   .topRe pc.Heart.CommentRegexp]
  ++ (pc.RequireMatchingLabel.map
      (fun r => [CompileItem.labelRe r.Regexp, CompileItem.graceDur r.GracePeriod])).flatten

/-- Run one compilation item against the oracles, producing the error the
pass reports for it. -/
def runCompileItem (rc : String → Except String Unit) (pd : String → Except String Int) :
    CompileItem → Except String Unit
  | .topRe pat =>
    match rc pat with
    | .error e => .error e
    | .ok _ => .ok ()
  | .labelRe pat =>
    match rc pat with
    | .error e => .error ("failed to compile label regexp: " ++ goQuote pat ++ ", error: " ++ e)
    | .ok _ => .ok ()
  | .graceDur s =>
    match pd s with
    | .error e =>
      .error ("failed to compile grace period duration: " ++ goQuote s ++ ", error: " ++ e)
    | .ok _ => .ok ()

/-- Run the items in order, stopping at the first failure. -/
def runCompileItems (rc : String → Except String Unit) (pd : String → Except String Int) :
    List CompileItem → Except String Unit
  | [] => .ok ()
  | i :: is =>
    match runCompileItem rc pd i with
    | .error e => .error e
    | .ok _ => runCompileItems rc pd is

/-! ## Data model of the `config` package in `src/flagutil/flagutil.go` -/

/-- `Preset` from the `config` package.  `Labels` is a Go map (association
list here); `Env`, `Volumes`, `VolumeMounts` are opaque pod-fragment payloads
never interpreted by this core, modelled as opaque strings. -/
structure Preset where
  Labels : List (String × String)
  Env : List String
  Volumes : List String
  VolumeMounts : List String
deriving DecidableEq

/-- `JobConfig` from the `config` package. -/
structure JobConfig where
  Presets : List Preset
deriving DecidableEq

/-- `OwnersDirBlacklist` from the `config` package. -/
structure OwnersDirBlacklist where
  Repos : List (String × List String)
  Default : List String
deriving DecidableEq

/-- `ProwConfig` from the `config` package. -/
structure ProwConfig where
  ProwJobNamespace : String
  PodNamespace : String
  OwnersDirBlacklist : OwnersDirBlacklist
deriving DecidableEq

/-- `Config` from the `config` package: composition of `JobConfig` and
`ProwConfig` (Go struct embedding). -/
structure Config where
  JobConfig : CiBot.JobConfig
  ProwConfig : CiBot.ProwConfig
deriving DecidableEq

/-- The `label + ":" + val` pair strings of all labels of all presets, in
iteration order. -/
def presetPairs (presets : List Preset) : List String :=
  (presets.map (fun p => p.Labels.map (fun lv => lv.1 ++ ":" ++ lv.2))).flatten

/-- The duplicate-detection loop of `mergeJobConfig`: scan the pair strings in
order against the set of pairs already seen, returning the first pair seen
twice. -/
def firstDupPair (seen : List String) : List String → Option String
  | [] => none
  | x :: xs => if x ∈ seen then some x else firstDupPair (x :: seen) xs

/-- `Config.mergeJobConfig` from `src/flagutil/flagutil.go`: appends the
fragment's presets to the accumulator (visible even on failure — the receiver
is mutated before the check), then scans the entire accumulated preset list
for a duplicated `label:value` pair. -/
def Config.mergeJobConfig (c : Config) (jc : CiBot.JobConfig) : Config × Option String :=
  let presets := c.JobConfig.Presets ++ jc.Presets
  let c := { c with JobConfig := { Presets := presets } }
  match firstDupPair [] (presetPairs presets) with
  | some pair => (c, some ("duplicated preset 'label:value' pair : " ++ pair))
  | none => (c, none)

/-- The characters after the last dot, when some dot occurs. -/
def lastExtSegment : List Char → Option (List Char)
  | [] => none
  | c :: cs =>
    match lastExtSegment cs with
    | some l => some l
    | none => if c = '.' then some cs else none

/-- `filepath.Ext` applied to a base name: the suffix starting at the final
dot, empty when there is no dot. -/
def goExt (name : String) : String :=
  match lastExtSegment name.data with
  | none => ""
  | some l => "." ++ String.mk l

/-- `strings.HasPrefix(name, "..")`. -/
def dotDotName (name : String) : Bool :=
  match name.data with
  | '.' :: '.' :: _ => true
  | _ => false

/-- A node of the job-config directory tree walked by `loadConfig`.  Each node
carries its base name, the walk error `filepath.Walk` would hand the callback
for it (`none` when it is reachable normally), and for files the result of
`yamlToConfig` on its contents. -/
inductive FSNode where
  | file (name : String) (walkErr : Option String) (parsed : Except String JobConfig)
  | dir (name : String) (walkErr : Option String) (children : List FSNode)

/-- State threaded through the walk: the `uniqueBasenames` set and the config
accumulated by `mergeJobConfig`. -/
structure WalkSt where
  seen : List String
  cfg : Config
deriving DecidableEq

mutual
/-- The walk callback of `loadConfig` applied to one node, plus
`filepath.Walk`'s traversal: a node with a walk error is logged and skipped
(for a directory, an unreadable directory is never descended into); a name
with prefix `..` is skipped (`filepath.SkipDir` for directories); files whose
extension is not `.yaml`/`.yml` are ignored; directories are descended into; a
basename already seen aborts with `duplicated basename is not allowed: %s`;
otherwise the file's parse error or merge error, if any, aborts the walk. -/
def walkNode (st : WalkSt) : FSNode → Except String WalkSt
  | .file _ (some _) _ => .ok st
  | .file name none parsed =>
    if dotDotName name then .ok st
    else if goExt name ≠ ".yaml" ∧ goExt name ≠ ".yml" then .ok st
    else if name ∈ st.seen then .error ("duplicated basename is not allowed: " ++ name)
    else
      match parsed with
      | .error e => .error e
      | .ok subConfig =>
        match st.cfg.mergeJobConfig subConfig with
        | (_, some e) => .error e
        | (cfg, none) => .ok ⟨name :: st.seen, cfg⟩
  | .dir _ (some _) _ => .ok st
  | .dir name none children =>
    if dotDotName name then .ok st
    else walkList st children

/-- Walk a list of sibling nodes in order, aborting on the first error. -/
def walkList (st : WalkSt) : List FSNode → Except String WalkSt
  | [] => .ok st
  | n :: ns =>
    match walkNode st n with
    | .error e => .error e
    | .ok st' => walkList st' ns
end

/-- What the job-config path names: empty (no job config), a regular file
(with its `yamlToConfig` result), or a directory with the given children.  The
`os.Stat` calls are represented by this choice plus `jobStatErr` below. -/
inductive JobSrc where
  | empty
  | file (parsed : Except String JobConfig)
  | dir (children : List FSNode)

/-- `loadConfig` from `src/flagutil/flagutil.go`, over explicit filesystem
outcomes: `prowStat` is `os.Stat(prowConfig)` (error, or whether the path is a
directory), `prowParsed` the `yamlToConfig` result for the prow config,
`jobStatErr` the `os.Stat(jobConfig)` error if any, and `job` what the
job-config path names.  The walk starts at the root directory node, whose own
callback invocation returns `nil` (continue) for a plain directory name, so
walking the root is walking its children in order. -/
def loadConfig (prowConfig : String) (prowStat : Except String Bool)
    (prowParsed : Except String Config) (jobStatErr : Option String)
    (job : JobSrc) : Except String Config :=
  match prowStat with
  | .error e => .error e
  | .ok isDir =>
    if isDir then .error ("prowConfig cannot be a dir - " ++ prowConfig)
    else
      match prowParsed with
      | .error e => .error e
      | .ok nc =>
        match job with
        | .empty => .ok nc
        | .file parsed =>
          match jobStatErr with
          | some e => .error e
          | none =>
            match parsed with
            | .error e => .error e
            | .ok jc =>
              match nc.mergeJobConfig jc with
              | (_, some e) => .error e
              | (nc, none) => .ok nc
        | .dir children =>
          match jobStatErr with
          | some e => .error e
          | none =>
            match walkList ⟨[], nc⟩ children with
            | .error e => .error e
            | .ok st => .ok st.cfg

/-- `Load` from `src/flagutil/flagutil.go`: calls `loadConfig` and returns its
result (the remaining validation hooks are commented out in the source; the
panic-recovery barrier is the identity on this pure model, which cannot
panic). -/
def Load (prowConfig : String) (prowStat : Except String Bool)
    (prowParsed : Except String Config) (jobStatErr : Option String)
    (job : JobSrc) : Except String Config :=
  loadConfig prowConfig prowStat prowParsed jobStatErr job

/-! ## Concrete helpers for witnesses and counterexamples -/

/-- An all-zero `Configuration` (every field at its Go zero value). -/
def emptyConfiguration : Configuration where
  Plugins := []
  ExternalPlugins := []
  Owners := ⟨[], [], []⟩
  Approve := []
  UseDeprecatedSelfApprove := false
  UseDeprecatedReviewApprove := false
  Blockades := []
  Blunderbuss := ⟨none, 0, none, false⟩
  CherryPickUnapproved := ⟨"", none, ""⟩
  ConfigUpdater := ⟨[], "", ""⟩
  Golint := none
  Heart := ⟨[], "", none⟩
  Label := none
  Lgtm := []
  RepoMilestone := []
  RequireMatchingLabel := []
  SigMention := ⟨"", none⟩
  Triggers := []

/-- A `regexp.Compile` oracle that accepts every pattern. -/
def rcAllOk : String → Except String Unit := fun _ => .ok ()

/-- A `time.ParseDuration` oracle that accepts every string. -/
def pdAllOk : String → Except String Int := fun _ => .ok 0

/-- A registry in which every plugin name is known. -/
def regAll : String → Bool := fun _ => true

/-- The error message Go's `regexp.Compile` produces for the pattern `(`. -/
def unclosedParenMsg : String :=
  "error parsing regexp: missing closing ): `(`"

/-- A `regexp.Compile` oracle that fails exactly on the pattern `(`, with the
message Go's engine produces for it. -/
def rcParen : String → Except String Unit := fun pat =>
  if pat = "(" then .error unclosedParenMsg else .ok ()

/-- An all-zero `Milestone`. -/
def emptyMilestone : Milestone := ⟨0, "", ""⟩

/-- An all-zero `ConfigMapSpec` except for its name. -/
def namedSpec (n : String) : ConfigMapSpec := ⟨n, "", "", [], []⟩

/-- An all-zero `RequireMatchingLabel`. -/
def emptyRML : RequireMatchingLabel :=
  ⟨"", "", "", false, false, "", none, "", "", "", 0⟩

/-- An all-zero `Config` (for the loader examples). -/
def emptyConfig : Config := ⟨⟨[]⟩, ⟨"", "", ⟨[], []⟩⟩⟩

/-- A preset with the given labels and no pod fragment. -/
def labelPreset (ls : List (String × String)) : Preset := ⟨ls, [], [], []⟩

/-- The spec's §8 example: scopes `kubernetes` and `kubernetes/kubernetes`
both list `trigger`. -/
def dupTriggerCfg : Configuration :=
  { emptyConfiguration with
    Plugins := [("kubernetes", ["trigger"]), ("kubernetes/kubernetes", ["trigger", "lgtm"])] }

/-- A configuration with both a built-in duplicate (`p1` under `o` and `o/r`)
and an external-plugin duplicate (`extp` under `o` and `o/r`). -/
def bothDupCfg : Configuration :=
  { emptyConfiguration with
    Plugins := [("o", ["p1"]), ("o/r", ["p1"])]
    ExternalPlugins := [("o", [⟨"extp", "", []⟩]), ("o/r", [⟨"extp", "", []⟩])] }

/-- The error `Validate` actually returns on `bothDupCfg`. -/
def bothDupErr : String :=
  " invalid plugin configuration:\n\tplugins [p1] are duplicated for o/r and o"

/-- A configuration whose only bad pattern is `SigMention.Regexp = "("`. -/
def badSigCfg : Configuration :=
  { emptyConfiguration with SigMention := ⟨"(", none⟩ }

/-- A configuration whose only bad pattern is `Heart.CommentRegexp = "("`. -/
def badHeartCfg : Configuration :=
  { emptyConfiguration with SigMention := ⟨"x", none⟩, Heart := ⟨[], "(", none⟩ }

/-- A configuration with one `RepoMilestone` entry whose
`MaintainersFriendlyName` is empty. -/
def milestoneCfg : Configuration :=
  { emptyConfiguration with RepoMilestone := [("kubernetes", emptyMilestone)] }

/-- A `ConfigUpdater` whose `Maps` is already non-empty. -/
def nonEmptyMapsCU : ConfigUpdater := ⟨[("f", namedSpec "n")], "", ""⟩

/-- The spec's §8 namespaces example wrapped in a configuration. -/
def nsExampleCfg : Configuration :=
  { emptyConfiguration with
    ConfigUpdater := ⟨[("p", ⟨"n", "", "ns1", ["ns2", "ns3"], []⟩)], "", ""⟩ }

/-- An accumulator already holding the preset `team:x`. -/
def teamXConfig : Config :=
  { emptyConfig with JobConfig := ⟨[labelPreset [("team", "x")]]⟩ }

/-- A fragment holding the preset `team:x` as well. -/
def teamXFragment : JobConfig := ⟨[labelPreset [("team", "x")]]⟩

/-- The spec's §8 duplicate-basename tree: `a/x.yaml` and `b/x.yaml`. -/
def dupBasenameTree : List FSNode :=
  [.dir "a" none [.file "x.yaml" none (.ok ⟨[]⟩)],
   .dir "b" none [.file "x.yaml" none (.ok ⟨[]⟩)]]

/-- A tree with a single file (no duplicate basename anywhere) whose YAML
fails to parse. -/
def parseErrTree : List FSNode :=
  [.file "x.yaml" none (.error "error unmarshaling x.yaml: boom")]

/-- A `Plugins` map whose only repetitions are inside a single scope's list. -/
def intraDupPlugins : List (String × List String) :=
  [("org", ["assign", "assign"]), ("org/repo", ["lgtm", "lgtm"])]

/-- An `ExternalPlugins` map whose only repetition is inside one scope. -/
def intraDupExternal : List (String × List ExternalPlugin) :=
  [("org/repo", [⟨"p", "", []⟩, ⟨"p", "", []⟩])]

/-! ## Helper lemmas -/

theorem strData_append (a b : String) : (a ++ b).data = a.data ++ b.data := by
  cases a; cases b; rfl

theorem strIn_refl (a : String) : StrIn a a :=
  ⟨[], [], by simp⟩

theorem strIn_app_right (a b c : String) (h : StrIn a b) : StrIn a (b ++ c) := by
  obtain ⟨s, t, hb⟩ := h
  exact ⟨s, t ++ c.data, by rw [strData_append, ← hb]; simp⟩

theorem strIn_app_left (a b c : String) (h : StrIn a c) : StrIn a (b ++ c) := by
  obtain ⟨s, t, hc⟩ := h
  exact ⟨b.data ++ s, t, by rw [strData_append, ← hc]; simp⟩

theorem strIn_trans {a b c : String} (h1 : StrIn a b) (h2 : StrIn b c) : StrIn a c := by
  obtain ⟨s, t, hb⟩ := h1
  obtain ⟨u, v, hc⟩ := h2
  exact ⟨u ++ s, t ++ v, by rw [← hc, ← hb]; simp⟩

theorem strIn_goJoin (sep x : String) : ∀ l : List String, x ∈ l → StrIn x (goJoin sep l)
  | [], h => absurd h (by simp)
  | [y], h => by
    rcases List.mem_singleton.mp h with rfl
    exact strIn_refl x
  | y :: z :: zs, h => by
    show StrIn x (y ++ sep ++ goJoin sep (z :: zs))
    rcases List.mem_cons.mp h with rfl | h2
    · exact strIn_app_right _ _ _ (strIn_app_right _ _ _ (strIn_refl x))
    · exact strIn_app_left _ _ _ (strIn_goJoin sep x (z :: zs) h2)

theorem lit_append_ne_empty {a : String} (s : String) (ha : a.data ≠ []) : a ++ s ≠ "" := by
  intro h
  have h2 := congrArg String.data h
  rw [strData_append] at h2
  exact ha (List.append_eq_nil.mp h2).1

theorem mem_of_mapGet_ne {α : Type} : ∀ (m : List (String × α)) (k : String) (d : α),
    mapGet m k d ≠ d → (k, mapGet m k d) ∈ m
  | [], _, _, h => absurd rfl h
  | (k', v) :: rest, k, d, h => by
    by_cases hk : k' = k
    · subst hk
      simp only [mapGet, if_pos rfl] at h ⊢
      exact List.mem_cons_self _ _
    · simp only [mapGet, if_neg hk] at h ⊢
      exact List.mem_cons_of_mem _ (mem_of_mapGet_ne rest k d h)

theorem mem_findDuplicatedPluginConfig {p : String} :
    ∀ (rc oc : List String), p ∈ rc → p ∈ oc → p ∈ findDuplicatedPluginConfig rc oc
  | [], _, hr, _ => absurd hr (by simp)
  | rp :: rest, oc, hr, ho => by
    show p ∈ (oc.filter (fun op => rp == op)).map (fun _ => rp)
        ++ findDuplicatedPluginConfig rest oc
    rcases List.mem_cons.mp hr with rfl | h2
    · exact List.mem_append_left _
        (List.mem_map.mpr ⟨p, List.mem_filter.mpr ⟨ho, by simp⟩, rfl⟩)
    · exact List.mem_append_right _ (mem_findDuplicatedPluginConfig rest oc h2 ho)

theorem findDuplicatedPluginConfig_eq_nil {oc : List String} :
    ∀ rc : List String, (∀ p ∈ rc, p ∉ oc) → findDuplicatedPluginConfig rc oc = []
  | [], _ => rfl
  | rp :: rest, h => by
    show (oc.filter (fun op => rp == op)).map (fun _ => rp)
        ++ findDuplicatedPluginConfig rest oc = []
    rw [findDuplicatedPluginConfig_eq_nil rest (fun p hp => h p (List.mem_cons_of_mem _ hp))]
    rw [List.filter_eq_nil_iff.mpr]
    · rfl
    · intro a ha hba
      exact h rp (List.mem_cons_self _ _) (by rw [eq_of_beq hba]; exact ha)

theorem goMapInsert_ne_nil {α : Type} (m : List (String × α)) (k : String) (v : α) :
    goMapInsert m k v ≠ [] := by
  cases m with
  | nil => simp [goMapInsert]
  | cons kv rest =>
    obtain ⟨k', v'⟩ := kv
    simp only [goMapInsert]
    split <;> simp

theorem compile_preserves {rc : String → Except String Unit} {pd : String → Except String Int}
    {pc c' : Configuration} (h : compileRegexpsAndDurations rc pd pc = .ok c') :
    c'.Plugins = pc.Plugins ∧ c'.ExternalPlugins = pc.ExternalPlugins := by
  unfold compileRegexpsAndDurations at h
  split at h
  · simp at h
  · split at h
    · simp at h
    · split at h
      · simp at h
      · split at h
        · simp at h
        · injection h with h'
          subst h'
          exact ⟨rfl, rfl⟩

theorem firstDupPair_none_iff :
    ∀ (seen l : List String), firstDupPair seen l = none ↔ l.Nodup ∧ ∀ x ∈ l, x ∉ seen
  | _, [] => by simp [firstDupPair]
  | seen, x :: xs => by
    simp only [firstDupPair]
    by_cases hx : x ∈ seen
    · simp only [if_pos hx]
      constructor
      · intro h; exact absurd h (by simp)
      · rintro ⟨_, hall⟩
        exact absurd hx (hall x (List.mem_cons_self _ _))
    · simp only [if_neg hx]
      rw [firstDupPair_none_iff (x :: seen) xs]
      constructor
      · rintro ⟨hnd, hall⟩
        refine ⟨List.nodup_cons.mpr ⟨fun hxin => ?_, hnd⟩, ?_⟩
        · exact absurd (List.mem_cons_self x seen) (hall x hxin)
        · intro y hy
          rcases List.mem_cons.mp hy with rfl | hy2
          · exact hx
          · intro hys
            exact hall y hy2 (List.mem_cons_of_mem _ hys)
      · rintro ⟨hnd, hall⟩
        have hnd2 := List.nodup_cons.mp hnd
        refine ⟨hnd2.2, ?_⟩
        intro y hy
        intro hyin
        rcases List.mem_cons.mp hyin with rfl | hys
        · exact hnd2.1 hy
        · exact hall y (List.mem_cons_of_mem _ hy) hys

theorem firstDupPair_some :
    ∀ (seen l : List String) (p : String), firstDupPair seen l = some p →
      (p ∈ seen ∧ p ∈ l) ∨ 2 ≤ l.count p
  | _, [], _, h => by simp [firstDupPair] at h
  | seen, x :: xs, p, h => by
    simp only [firstDupPair] at h
    by_cases hx : x ∈ seen
    · rw [if_pos hx] at h
      injection h with h'
      subst h'
      exact Or.inl ⟨hx, List.mem_cons_self _ _⟩
    · rw [if_neg hx] at h
      rcases firstDupPair_some (x :: seen) xs p h with ⟨hin, hl⟩ | hc
      · rcases List.mem_cons.mp hin with rfl | hseen
        · refine Or.inr ?_
          rw [List.count_cons_self]
          have : 1 ≤ xs.count p := List.count_pos_iff.mpr hl
          omega
        · exact Or.inl ⟨hseen, List.mem_cons_of_mem _ hl⟩
      · refine Or.inr ?_
        have : xs.count p ≤ (x :: xs).count p := by
          rw [List.count_cons]
          omega
        omega

theorem append_data_ne_nil {a : String} (b : String) (ha : a.data ≠ []) :
    (a ++ b).data ≠ [] := by
  rw [strData_append]
  intro h
  exact ha (List.append_eq_nil.mp h).1

theorem cu_maps_ne_nil (cu : ConfigUpdater) : (ConfigUpdater.SetDefaults cu).Maps ≠ [] := by
  obtain ⟨m, cf, pf⟩ := cu
  by_cases hm : m.length = 0
  · simp only [ConfigUpdater.SetDefaults, if_pos hm]
    intro hcontra
    exact goMapInsert_ne_nil _ _ _ (List.map_eq_nil_iff.mp hcontra)
  · simp only [ConfigUpdater.SetDefaults, if_neg hm]
    intro hcontra
    exact hm (by simp [List.map_eq_nil_iff.mp hcontra])

theorem cu_SetDefaults_shape (cu : ConfigUpdater) :
    ∃ X : List (String × ConfigMapSpec),
      ConfigUpdater.SetDefaults cu
        = ⟨X.map (fun kv => (kv.1, resolveSpec kv.2)), cu.ConfigFile, cu.PluginFile⟩ :=
  ⟨_, rfl⟩

theorem cu_SetDefaults_nonempty (cu : ConfigUpdater) (h : cu.Maps ≠ []) :
    ConfigUpdater.SetDefaults cu
      = ⟨cu.Maps.map (fun kv => (kv.1, resolveSpec kv.2)), cu.ConfigFile, cu.PluginFile⟩ := by
  have hl : ¬ (cu.Maps.length = 0) := by rwa [List.length_eq_zero]
  simp only [ConfigUpdater.SetDefaults, if_neg hl]

theorem cu_SetDefaults_idem (cu : ConfigUpdater) :
    ConfigUpdater.SetDefaults (ConfigUpdater.SetDefaults cu)
      = ConfigUpdater.SetDefaults cu := by
  obtain ⟨X, hX⟩ := cu_SetDefaults_shape cu
  rw [cu_SetDefaults_nonempty (ConfigUpdater.SetDefaults cu) (cu_maps_ne_nil cu)]
  rw [hX]
  rw [List.map_map]
  rfl

theorem map_idem_of_idem {α : Type} (f : α → α) (hf : ∀ a, f (f a) = f a) (l : List α) :
    (l.map f).map f = l.map f := by
  rw [List.map_map]
  exact List.map_congr_left (fun a _ => hf a)

theorem defaultEndpoint_idem (p : ExternalPlugin) :
    defaultEndpoint (defaultEndpoint p) = defaultEndpoint p := by
  unfold defaultEndpoint
  by_cases h : p.Endpoint ≠ ""
  · simp only [if_pos h]
  · simp only [if_neg h]
    rw [if_pos (lit_append_ne_empty p.Name (by decide))]

theorem defaultBlunderbuss_idem (b : Blunderbuss) :
    defaultBlunderbuss (defaultBlunderbuss b) = defaultBlunderbuss b := by
  unfold defaultBlunderbuss
  by_cases h : b.ReviewerCount = none ∧ b.FileWeightCount = none
  · simp only [if_pos h]
    rw [if_neg (fun hc => Option.noConfusion hc.1)]
  · simp only [if_neg h]

theorem defaultTrigger_idem (t : Trigger) :
    defaultTrigger (defaultTrigger t) = defaultTrigger t := by
  unfold defaultTrigger
  by_cases h : t.TrustedOrg = "" ∨ t.JoinOrgURL ≠ ""
  · simp only [if_pos h]
  · simp only [if_neg h]
    rw [if_pos (Or.inr (lit_append_ne_empty "/people"
      (append_data_ne_nil t.TrustedOrg (by decide))))]

theorem defaultSigMention_idem (s : SigMention) :
    defaultSigMention (defaultSigMention s) = defaultSigMention s := by
  unfold defaultSigMention
  by_cases h : s.Regexp = ""
  · simp only [if_pos h]
    rw [if_neg (by decide : ¬ (defaultSigMentionPattern = ""))]
  · simp only [if_neg h]

theorem defaultCherryPick_idem (cp : CherryPickUnapproved) :
    defaultCherryPick (defaultCherryPick cp) = defaultCherryPick cp := by
  unfold defaultCherryPick
  by_cases h1 : cp.BranchRegexp = ""
  · by_cases h2 : cp.Comment = ""
    · simp only [if_pos h1, if_pos h2]
      rw [if_neg (by decide : ¬ (("^release-.*$" : String) = ""))]
      rw [if_neg (by decide : ¬ (defaultCherryPickComment = ""))]
    · simp only [if_pos h1, if_neg h2]
      rw [if_neg (by decide : ¬ (("^release-.*$" : String) = ""))]
      dsimp only
      rw [if_neg h2]
  · by_cases h2 : cp.Comment = ""
    · simp only [if_neg h1, if_pos h2]
      rw [if_neg (by decide : ¬ (defaultCherryPickComment = ""))]
    · simp only [if_neg h1, if_neg h2]

theorem defaultGracePeriod_idem (r : RequireMatchingLabel) :
    defaultGracePeriod (defaultGracePeriod r) = defaultGracePeriod r := by
  unfold defaultGracePeriod
  by_cases h : r.GracePeriod = ""
  · simp only [if_pos h]
    rw [if_neg (by decide : ¬ (("5s" : String) = ""))]
  · simp only [if_neg h]

theorem cu_namespaces_resolved (cu : ConfigUpdater) (kv : String × ConfigMapSpec)
    (h : kv ∈ (ConfigUpdater.SetDefaults cu).Maps) :
    kv.2.Namespaces = kv.2.Namespace :: kv.2.AdditionalNamespaces := by
  simp only [ConfigUpdater.SetDefaults] at h
  rw [List.mem_map] at h
  obtain ⟨a, _, rfl⟩ := h
  rfl

/-! ## Claim theorems -/

/-- C4: the source intends every `RepoMilestone` entry with empty
`MaintainersFriendlyName` to be defaulted to `"SIG Chairs/TLs"`, but the Go
loop mutates a loop-local copy, so the defaulting pass leaves
`RepoMilestone` unchanged and the default is never observable in the mutated
`Configuration`: on a configuration with one entry whose friendly name is
empty, it is still empty after `setDefaults`. -/
theorem repoMilestone_default_not_applied :
    (∀ c : Configuration, (Configuration.setDefaults c).RepoMilestone = c.RepoMilestone)
    ∧ (mapGet (Configuration.setDefaults milestoneCfg).RepoMilestone "kubernetes"
        emptyMilestone).MaintainersFriendlyName = ""
    ∧ ("" : String) ≠ "SIG Chairs/TLs" :=
  ⟨fun _ => rfl, rfl, by decide⟩

/-- C5 counterexample: a non-empty `ConfigUpdater.Maps` is not left as-is by
`SetDefaults` — the namespace-resolution loop rewrites every entry's derived
`Namespaces` field (here from `[]` to `[""]`). -/
theorem configUpdater_maps_changed_cex :
    nonEmptyMapsCU.Maps ≠ []
    ∧ (ConfigUpdater.SetDefaults nonEmptyMapsCU).Maps ≠ nonEmptyMapsCU.Maps :=
  ⟨by decide, by decide⟩

/-- C5 (amended): if `Maps` and both deprecated fields are empty, defaulting
produces exactly the two entries `"prow/config.json" ↦ Name "config"` and
`"prow/plugins.yaml" ↦ Name "plugins"` (with their derived `Namespaces`
resolved); if `Maps` is non-empty its keys and author-supplied fields are
unchanged and the deprecated fields are ignored, only the derived
`Namespaces` field of each entry being recomputed; and `Maps` is never empty
after defaulting. -/
theorem configUpdater_setDefaults_maps (cu : ConfigUpdater) :
    (cu.Maps = [] ∧ cu.ConfigFile = "" ∧ cu.PluginFile = "" →
      (ConfigUpdater.SetDefaults cu).Maps
        = [("prow/config.json", ⟨"config", "", "", [], [""]⟩),
           ("prow/plugins.yaml", ⟨"plugins", "", "", [], [""]⟩)])
    ∧ (cu.Maps ≠ [] →
      (ConfigUpdater.SetDefaults cu).Maps
        = cu.Maps.map (fun kv =>
            (kv.1, { kv.2 with Namespaces := kv.2.Namespace :: kv.2.AdditionalNamespaces })))
    ∧ (ConfigUpdater.SetDefaults cu).Maps ≠ [] := by
  obtain ⟨m, cf, pf⟩ := cu
  refine ⟨?_, ?_, ?_⟩
  · rintro ⟨h1, h2, h3⟩
    simp only at h1 h2 h3
    subst h1; subst h2; subst h3
    rfl
  · intro h
    simp only at h
    have hl : ¬ (m.length = 0) := by simpa [List.length_eq_zero] using h
    simp only [ConfigUpdater.SetDefaults, if_neg hl]
    rfl
  · by_cases hm : m.length = 0
    · simp only [ConfigUpdater.SetDefaults, if_pos hm]
      intro hcontra
      exact goMapInsert_ne_nil _ _ _ (List.map_eq_nil_iff.mp hcontra)
    · simp only [ConfigUpdater.SetDefaults, if_neg hm]
      intro hcontra
      exact hm (by simp [List.map_eq_nil_iff.mp hcontra])

/-- C5 witness: both branches of the amended claim at concrete inputs: the
all-empty updater yields exactly the two default entries, and an updater with
one existing entry keeps its key and author fields. -/
theorem configUpdater_setDefaults_maps_wit :
    (ConfigUpdater.SetDefaults ⟨[], "", ""⟩).Maps
      = [("prow/config.json", ⟨"config", "", "", [], [""]⟩),
         ("prow/plugins.yaml", ⟨"plugins", "", "", [], [""]⟩)]
    ∧ (ConfigUpdater.SetDefaults nonEmptyMapsCU).Maps
      = [("f", ⟨"n", "", "", [], [""]⟩)] :=
  ⟨(configUpdater_setDefaults_maps ⟨[], "", ""⟩).1 ⟨rfl, rfl, rfl⟩,
   (configUpdater_setDefaults_maps nonEmptyMapsCU).2.1 (by decide)⟩

/-- C6: after the defaulting pass every entry of `ConfigUpdater.Maps`
satisfies `Namespaces = [Namespace] ++ AdditionalNamespaces`, recomputed from
those two fields regardless of any previously supplied `Namespaces` value. -/
theorem maps_namespaces_resolved (c : Configuration) (kv : String × ConfigMapSpec)
    (h : kv ∈ (Configuration.setDefaults c).ConfigUpdater.Maps) :
    kv.2.Namespaces = kv.2.Namespace :: kv.2.AdditionalNamespaces :=
  cu_namespaces_resolved c.ConfigUpdater kv h

/-- C6 witness: the spec's example — an entry with `Namespace "ns1"` and
`AdditionalNamespaces ["ns2","ns3"]` resolves to `["ns1","ns2","ns3"]`. -/
theorem maps_namespaces_resolved_wit :
    ("p", (⟨"n", "", "ns1", ["ns2", "ns3"], ["ns1", "ns2", "ns3"]⟩ : ConfigMapSpec))
      ∈ (Configuration.setDefaults nsExampleCfg).ConfigUpdater.Maps
    ∧ (["ns1", "ns2", "ns3"] : List String) = "ns1" :: ["ns2", "ns3"] :=
  ⟨by decide,
   maps_namespaces_resolved nsExampleCfg
     ("p", ⟨"n", "", "ns1", ["ns2", "ns3"], ["ns1", "ns2", "ns3"]⟩) (by decide)⟩

/-- C7: `mergeJobConfig` appends the fragment's presets to the accumulator;
it returns no error exactly when the `label:value` pair strings over the
whole accumulated preset list are pairwise distinct, and on failure the error
identifies a pair occurring at least twice. -/
theorem mergeJobConfig_dup_pairs (c : Config) (jc : JobConfig) :
    ((c.mergeJobConfig jc).1.JobConfig.Presets = c.JobConfig.Presets ++ jc.Presets)
    ∧ ((c.mergeJobConfig jc).2 = none
        ↔ (presetPairs (c.JobConfig.Presets ++ jc.Presets)).Nodup)
    ∧ (∀ e, (c.mergeJobConfig jc).2 = some e →
        ∃ pair, 2 ≤ (presetPairs (c.JobConfig.Presets ++ jc.Presets)).count pair
          ∧ e = "duplicated preset 'label:value' pair : " ++ pair) := by
  refine ⟨?_, ?_, ?_⟩
  · simp only [Config.mergeJobConfig]
    split <;> rfl
  · simp only [Config.mergeJobConfig]
    cases hf : firstDupPair [] (presetPairs (c.JobConfig.Presets ++ jc.Presets)) with
    | none =>
      simp only [hf]
      have hnd := ((firstDupPair_none_iff [] _).mp hf).1
      simp [hnd]
    | some p =>
      simp only [hf]
      constructor
      · intro hcontra; exact absurd hcontra (by simp)
      · intro hnd
        rcases firstDupPair_some [] _ p hf with ⟨hin, _⟩ | hc
        · exact absurd hin (by simp)
        · have hle := List.nodup_iff_count_le_one.mp hnd p
          omega
  · intro e he
    simp only [Config.mergeJobConfig] at he
    cases hf : firstDupPair [] (presetPairs (c.JobConfig.Presets ++ jc.Presets)) with
    | none => rw [hf] at he; simp at he
    | some p =>
      rw [hf] at he
      simp only [Option.some.injEq] at he
      rcases firstDupPair_some [] _ p hf with ⟨hin, _⟩ | hc
      · exact absurd hin (by simp)
      · exact ⟨p, hc, he.symm⟩

/-- C7 witness: merging a fragment whose preset repeats the accumulator's
`team:x` pair yields the duplicated-pair error identifying `team:x`. -/
theorem mergeJobConfig_dup_pairs_wit :
    ∃ pair,
      2 ≤ (presetPairs (teamXConfig.JobConfig.Presets ++ teamXFragment.Presets)).count pair
      ∧ "duplicated preset 'label:value' pair : team:x"
          = "duplicated preset 'label:value' pair : " ++ pair :=
  (mergeJobConfig_dup_pairs teamXConfig teamXFragment).2.2 _ rfl

/-- C10: the duplicate check only compares an `org/repo` scope's list against
its org's list: whenever every `org/repo` scope's list is disjoint from its
org's list (so any repetition sits inside a single scope's own list), no
duplicated-plugin error is recorded for `Plugins`, and
`validateExternalPlugins` returns no error at all. -/
theorem intra_scope_repetition_no_dup_error :
    (∀ plugins : List (String × List String),
      (∀ pr ∈ plugins, hasSlash pr.1 = true →
        ∀ p ∈ pr.2, p ∉ mapGet plugins (beforeSlash pr.1) []) →
      duplicatedPluginErrors plugins = [])
    ∧ (∀ eps : List (String × List ExternalPlugin),
      (∀ pr ∈ eps, hasSlash pr.1 = true →
        ∀ p ∈ pr.2, p.Name ∉ (mapGet eps (beforeSlash pr.1) []).map (fun q => q.Name)) →
      validateExternalPlugins eps = none) := by
  constructor
  · intro plugins hdisj
    unfold duplicatedPluginErrors
    rw [List.filterMap_eq_nil_iff]
    intro pr hpr
    by_cases hs : hasSlash pr.1 = true
    · simp only [if_pos hs]
      rw [findDuplicatedPluginConfig_eq_nil _ (hdisj pr hpr hs)]
      rfl
    · simp [hs]
  · intro eps hdisj
    have herrs : duplicatedExternalPluginErrors eps = [] := by
      unfold duplicatedExternalPluginErrors
      rw [List.filterMap_eq_nil_iff]
      intro pr hpr
      by_cases hs : hasSlash pr.1 = true
      · simp only [if_pos hs]
        rw [findDuplicatedPluginConfig_eq_nil _ ?_]
        · rfl
        · intro nm hnm
          rw [List.mem_map] at hnm
          obtain ⟨q, hq, rfl⟩ := hnm
          exact hdisj pr hpr hs q hq
      · simp [hs]
    simp [validateExternalPlugins, herrs]

theorem compileRMLs_items (rc : String → Except String Unit) (pd : String → Except String Int) :
    ∀ rs : List RequireMatchingLabel,
      exceptErr (compileRMLs rc pd rs)
        = exceptErr (runCompileItems rc pd
            ((rs.map (fun r => [CompileItem.labelRe r.Regexp,
                CompileItem.graceDur r.GracePeriod])).flatten))
  | [] => rfl
  | r :: rs => by
    simp only [List.map_cons, List.flatten_cons, List.cons_append, List.nil_append]
    cases h1 : rc r.Regexp with
    | error e =>
      simp [compileRMLs, runCompileItems, runCompileItem, h1, exceptErr]
    | ok u =>
      cases h2 : pd r.GracePeriod with
      | error e =>
        simp [compileRMLs, runCompileItems, runCompileItem, h1, h2, exceptErr]
      | ok d =>
        have ih := compileRMLs_items rc pd rs
        cases h3 : compileRMLs rc pd rs with
        | error e =>
          rw [h3] at ih
          simp only [compileRMLs, runCompileItems, runCompileItem, h1, h2, h3]
          simp only [exceptErr] at ih ⊢
          exact ih
        | ok rest =>
          rw [h3] at ih
          simp only [compileRMLs, runCompileItems, runCompileItem, h1, h2, h3]
          simp only [exceptErr] at ih ⊢
          exact ih

/-- C3 (amended): the compilation pass runs exactly the spec's ordered list
of compilation items — `SigMention.Regexp`, `CherryPickUnapproved.
BranchRegexp`, `Heart.CommentRegexp`, then per `RequireMatchingLabel` entry
its regexp followed by its grace period — aborting on the first failure; a
`RequireMatchingLabel` failure is reported naming the offending pattern or
duration string and its field, while a failure of one of the three top-level
patterns returns the regexp library's error verbatim (which quotes the
pattern but does not name the field). -/
theorem compile_follows_spec_order (rc : String → Except String Unit)
    (pd : String → Except String Int) (pc : Configuration) :
    exceptErr (compileRegexpsAndDurations rc pd pc)
      = exceptErr (runCompileItems rc pd (compileItems pc)) := by
  unfold compileItems
  simp only [List.cons_append, List.nil_append]
  cases h1 : rc pc.SigMention.Regexp with
  | error e =>
    simp [compileRegexpsAndDurations, runCompileItems, runCompileItem, h1, exceptErr]
  | ok u1 =>
    cases h2 : rc pc.CherryPickUnapproved.BranchRegexp with
    | error e =>
      simp [compileRegexpsAndDurations, runCompileItems, runCompileItem, h1, h2, exceptErr]
    | ok u2 =>
      cases h3 : rc pc.Heart.CommentRegexp with
      | error e =>
        simp [compileRegexpsAndDurations, runCompileItems, runCompileItem, h1, h2, h3,
          exceptErr]
      | ok u3 =>
        have ih := compileRMLs_items rc pd pc.RequireMatchingLabel
        cases h4 : compileRMLs rc pd pc.RequireMatchingLabel with
        | error e =>
          rw [h4] at ih
          simp only [compileRegexpsAndDurations, runCompileItems, runCompileItem,
            h1, h2, h3, h4]
          simp only [exceptErr] at ih ⊢
          exact ih
        | ok rest =>
          rw [h4] at ih
          simp only [compileRegexpsAndDurations, runCompileItems, runCompileItem,
            h1, h2, h3, h4]
          simp only [exceptErr] at ih ⊢
          exact ih

set_option maxRecDepth 8000 in
/-- C3 counterexample: a failure of one of the three top-level patterns does
not name the field it came from — a configuration whose bad pattern `(` sits
in `SigMention.Regexp` and one whose bad pattern sits in
`Heart.CommentRegexp` produce the identical error (the regexp library's
message, which quotes the pattern but mentions neither field). -/
theorem compile_error_field_anonymous_cex :
    compileRegexpsAndDurations rcParen pdAllOk badSigCfg = .error unclosedParenMsg
    ∧ compileRegexpsAndDurations rcParen pdAllOk badHeartCfg = .error unclosedParenMsg
    ∧ badSigCfg.SigMention.Regexp = "(" ∧ badSigCfg.Heart.CommentRegexp = ""
    ∧ badHeartCfg.SigMention.Regexp = "x" ∧ badHeartCfg.Heart.CommentRegexp = "("
    ∧ ¬ StrIn "SigMention" unclosedParenMsg ∧ ¬ StrIn "Heart" unclosedParenMsg :=
  ⟨rfl, rfl, rfl, rfl, rfl, rfl, by decide, by decide⟩

/-- C1: whenever an `org/repo` scope and its `org` scope both list a plugin
`p` (and the compilation pass succeeds, so that validation is reached),
`Validate` returns an error whose text contains `p`, the `org/repo` scope
string and the `org` scope string; `repo` and `p` are universally
quantified, so this holds for every duplicated plugin across all scopes. -/
theorem validate_names_duplicated_plugin (reg : String → Bool)
    (rc : String → Except String Unit) (pd : String → Except String Int)
    (c : Configuration) (repo p : String)
    (hcomp : exceptOk (compileRegexpsAndDurations rc pd c.setDefaults) = true)
    (hs : hasSlash repo = true)
    (hp : p ∈ mapGet c.Plugins repo [])
    (ho : p ∈ mapGet c.Plugins (beforeSlash repo) []) :
    ∃ e, Configuration.Validate reg rc pd c = .error e
      ∧ StrIn p e ∧ StrIn repo e ∧ StrIn (beforeSlash repo) e := by
  obtain ⟨c', hc⟩ : ∃ c', compileRegexpsAndDurations rc pd c.setDefaults = .ok c' := by
    cases hcc : compileRegexpsAndDurations rc pd c.setDefaults with
    | ok x => exact ⟨x, rfl⟩
    | error e => rw [hcc] at hcomp; simp [exceptOk] at hcomp
  have hplug : c'.Plugins = c.Plugins := (compile_preserves hc).1
  have hdup : p ∈ findDuplicatedPluginConfig (mapGet c.Plugins repo [])
      (mapGet c.Plugins (beforeSlash repo) []) :=
    mem_findDuplicatedPluginConfig _ _ hp ho
  have hentry : (repo, mapGet c.Plugins repo []) ∈ c.Plugins := by
    refine mem_of_mapGet_ne _ _ _ ?_
    intro hnil
    rw [hnil] at hp
    simp at hp
  have hline : ("plugins "
        ++ goFmtStrSlice (findDuplicatedPluginConfig (mapGet c.Plugins repo [])
            (mapGet c.Plugins (beforeSlash repo) []))
        ++ " are duplicated for " ++ repo ++ " and " ++ beforeSlash repo)
      ∈ duplicatedPluginErrors c.Plugins := by
    unfold duplicatedPluginErrors
    rw [List.mem_filterMap]
    refine ⟨(repo, mapGet c.Plugins repo []), hentry, ?_⟩
    simp only [if_pos hs]
    rw [if_pos (List.length_pos.mpr (List.ne_nil_of_mem hdup))]
  have hmem : ("plugins "
        ++ goFmtStrSlice (findDuplicatedPluginConfig (mapGet c.Plugins repo [])
            (mapGet c.Plugins (beforeSlash repo) []))
        ++ " are duplicated for " ++ repo ++ " and " ++ beforeSlash repo)
      ∈ unknownPluginErrors reg c.Plugins ++ duplicatedPluginErrors c.Plugins :=
    List.mem_append_right _ hline
  have hv : validatePlugins reg c.Plugins
      = some (" invalid plugin configuration:\n\t"
          ++ goJoin "\n\t" (unknownPluginErrors reg c.Plugins
              ++ duplicatedPluginErrors c.Plugins)) := by
    unfold validatePlugins
    rw [if_pos (List.length_pos.mpr (List.ne_nil_of_mem hmem))]
  have hval : Configuration.Validate reg rc pd c
      = .error (" invalid plugin configuration:\n\t"
          ++ goJoin "\n\t" (unknownPluginErrors reg c.Plugins
              ++ duplicatedPluginErrors c.Plugins)) := by
    simp only [Configuration.Validate, hc, hplug, hv]
  have hPinLine : StrIn p ("plugins "
        ++ goFmtStrSlice (findDuplicatedPluginConfig (mapGet c.Plugins repo [])
            (mapGet c.Plugins (beforeSlash repo) []))
        ++ " are duplicated for " ++ repo ++ " and " ++ beforeSlash repo) := by
    refine strIn_app_right _ _ _ (strIn_app_right _ _ _ (strIn_app_right _ _ _
      (strIn_app_right _ _ _ (strIn_app_left _ _ _ ?_))))
    unfold goFmtStrSlice
    exact strIn_app_right _ _ _ (strIn_app_left _ _ _ (strIn_goJoin " " p _ hdup))
  have hRinLine : StrIn repo ("plugins "
        ++ goFmtStrSlice (findDuplicatedPluginConfig (mapGet c.Plugins repo [])
            (mapGet c.Plugins (beforeSlash repo) []))
        ++ " are duplicated for " ++ repo ++ " and " ++ beforeSlash repo) :=
    strIn_app_right _ _ _ (strIn_app_right _ _ _ (strIn_app_left _ _ _ (strIn_refl repo)))
  have hOinLine : StrIn (beforeSlash repo) ("plugins "
        ++ goFmtStrSlice (findDuplicatedPluginConfig (mapGet c.Plugins repo [])
            (mapGet c.Plugins (beforeSlash repo) []))
        ++ " are duplicated for " ++ repo ++ " and " ++ beforeSlash repo) :=
    strIn_app_left _ _ _ (strIn_refl (beforeSlash repo))
  have hLinE : StrIn ("plugins "
        ++ goFmtStrSlice (findDuplicatedPluginConfig (mapGet c.Plugins repo [])
            (mapGet c.Plugins (beforeSlash repo) []))
        ++ " are duplicated for " ++ repo ++ " and " ++ beforeSlash repo)
      (" invalid plugin configuration:\n\t"
        ++ goJoin "\n\t" (unknownPluginErrors reg c.Plugins
            ++ duplicatedPluginErrors c.Plugins)) :=
    strIn_app_left _ _ _ (strIn_goJoin "\n\t" _ _ hmem)
  exact ⟨_, hval, strIn_trans hPinLine hLinE, strIn_trans hRinLine hLinE,
    strIn_trans hOinLine hLinE⟩

/-- C1 witness: the spec's §8 example — scopes `kubernetes` and
`kubernetes/kubernetes` both list `trigger`; Validate's error mentions the
plugin and both scope strings. -/
theorem validate_names_duplicated_plugin_wit :
    ∃ e, Configuration.Validate regAll rcAllOk pdAllOk dupTriggerCfg = .error e
      ∧ StrIn "trigger" e ∧ StrIn "kubernetes/kubernetes" e
      ∧ StrIn (beforeSlash "kubernetes/kubernetes") e :=
  validate_names_duplicated_plugin regAll rcAllOk pdAllOk dupTriggerCfg
    "kubernetes/kubernetes" "trigger" rfl rfl (by decide) (by decide)

set_option maxRecDepth 8000 in
/-- C2 counterexample: on a configuration with both a built-in duplicate
(`p1`) and an external duplicate (`extp`), `Validate` returns after the
plugin-name step alone: its error is exactly the step-3 message, which does
not mention `extp`, even though the external-plugin step would have reported
`extp` (so the claim that one joined error mentions both is false). -/
theorem validate_not_joined_across_steps_cex :
    Configuration.Validate regAll rcAllOk pdAllOk bothDupCfg = .error bothDupErr
    ∧ validateExternalPlugins (Configuration.setDefaults bothDupCfg).ExternalPlugins
        = some "invalid plugin configuration:\n\texternal plugins [extp] are duplicated for o/r and o"
    ∧ ¬ StrIn "extp" bothDupErr :=
  ⟨rfl, rfl, by decide⟩

/-- C2 (amended): within step 3, all unknown-plugin and duplicated-plugin
errors are aggregated and joined into one multi-line error that mentions each
of them; but `Validate` returns that step-3 error alone whenever step 3
fails, so a configuration with both a built-in and an external duplicate
yields an error mentioning only the built-in one. -/
theorem validate_step3_aggregated_returned_alone :
    (∀ (reg : String → Bool) (plugins : List (String × List String)),
      unknownPluginErrors reg plugins ++ duplicatedPluginErrors plugins ≠ [] →
      validatePlugins reg plugins
        = some (" invalid plugin configuration:\n\t"
            ++ goJoin "\n\t" (unknownPluginErrors reg plugins ++ duplicatedPluginErrors plugins))
      ∧ ∀ x ∈ unknownPluginErrors reg plugins ++ duplicatedPluginErrors plugins,
          StrIn x (" invalid plugin configuration:\n\t"
            ++ goJoin "\n\t" (unknownPluginErrors reg plugins
                ++ duplicatedPluginErrors plugins)))
    ∧ (∀ (reg : String → Bool) (rc : String → Except String Unit)
        (pd : String → Except String Int) (c : Configuration) (e : String),
      exceptOk (compileRegexpsAndDurations rc pd c.setDefaults) = true →
      validatePlugins reg c.Plugins = some e →
      Configuration.Validate reg rc pd c = .error e) := by
  constructor
  · intro reg plugins hne
    refine ⟨?_, ?_⟩
    · unfold validatePlugins
      rw [if_pos (List.length_pos.mpr hne)]
    · intro x hx
      exact strIn_app_left _ _ _ (strIn_goJoin _ _ _ hx)
  · intro reg rc pd c e hcomp hv
    obtain ⟨c', hc⟩ : ∃ c', compileRegexpsAndDurations rc pd c.setDefaults = .ok c' := by
      cases hcc : compileRegexpsAndDurations rc pd c.setDefaults with
      | ok x => exact ⟨x, rfl⟩
      | error er => rw [hcc] at hcomp; simp [exceptOk] at hcomp
    have hplug : c'.Plugins = c.Plugins := (compile_preserves hc).1
    simp only [Configuration.Validate, hc, hplug, hv]

/-- C2 witness: on the configuration with both kinds of duplicates, the
second part of the amended claim applied at concrete inputs: `Validate`
returns exactly the step-3 error. -/
theorem validate_step3_aggregated_returned_alone_wit :
    Configuration.Validate regAll rcAllOk pdAllOk bothDupCfg = .error bothDupErr :=
  validate_step3_aggregated_returned_alone.2 regAll rcAllOk pdAllOk bothDupCfg
    bothDupErr rfl rfl

/-- C8 counterexample: a load can fail although no two files share a
basename — a directory with a single `.yaml` file whose parse fails makes
`Load` fail with the parse error, so duplicate basename is not the only
per-entry condition that is fatal for the whole load. -/
theorem load_fails_without_dup_basename_cex :
    Load "p" (.ok false) (.ok emptyConfig) none (.dir parseErrTree)
      = .error "error unmarshaling x.yaml: boom" := rfl

/-- C8 (amended): during the directory walk, a per-entry walk error is
logged and skipped without failing the load (for a directory, without
descending into it); a second `.yaml` file whose basename was already seen
aborts the whole walk and makes `Load` fail with an error naming that
basename; but duplicate basename is not the only fatal per-entry condition —
a parse failure of an entry likewise aborts the walk with that entry's
error. -/
theorem walk_dup_basename_fatal_walkerr_skipped :
    (∀ (d1 d2 n : String) (jc1 : JobConfig) (p2 : Except String JobConfig)
       (nc cfg1 : Config),
      dotDotName d1 = false → dotDotName d2 = false → dotDotName n = false →
      goExt n = ".yaml" →
      nc.mergeJobConfig jc1 = (cfg1, none) →
      Load "p" (.ok false) (.ok nc) none
        (.dir [.dir d1 none [.file n none (.ok jc1)],
               .dir d2 none [.file n none p2]])
        = .error ("duplicated basename is not allowed: " ++ n))
    ∧ (∀ (st : WalkSt) (name e : String) (parsed : Except String JobConfig)
        (children : List FSNode),
      walkNode st (.file name (some e) parsed) = .ok st
      ∧ walkNode st (.dir name (some e) children) = .ok st)
    ∧ (∀ (st : WalkSt) (n msg : String),
      dotDotName n = false → goExt n = ".yaml" → n ∉ st.seen →
      walkNode st (.file n none (.error msg)) = .error msg) := by
  refine ⟨?_, ?_, ?_⟩
  · intro d1 d2 n jc1 p2 nc cfg1 h1 h2 h3 hext hm
    have hcond : ¬ (goExt n ≠ ".yaml" ∧ goExt n ≠ ".yml") := by simp [hext]
    have hf1 : walkNode ⟨[], nc⟩ (.file n none (.ok jc1)) = .ok ⟨[n], cfg1⟩ := by
      simp only [walkNode, h3, Bool.false_eq_true, if_false, hcond, List.not_mem_nil, hm]
    have hd1 : walkNode ⟨[], nc⟩ (.dir d1 none [.file n none (.ok jc1)])
        = .ok ⟨[n], cfg1⟩ := by
      unfold walkNode
      simp only [h1, Bool.false_eq_true, if_false]
      unfold walkList
      rw [hf1]
      rfl
    have hf2 : walkNode ⟨[n], cfg1⟩ (.file n none p2)
        = .error ("duplicated basename is not allowed: " ++ n) := by
      simp only [walkNode, h3, Bool.false_eq_true, if_false, hcond, List.mem_cons,
        List.not_mem_nil, or_false, if_true]
    have hd2 : walkNode ⟨[n], cfg1⟩ (.dir d2 none [.file n none p2])
        = .error ("duplicated basename is not allowed: " ++ n) := by
      unfold walkNode
      simp only [h2, Bool.false_eq_true, if_false]
      unfold walkList
      rw [hf2]
    have hw : walkList ⟨[], nc⟩
        [.dir d1 none [.file n none (.ok jc1)], .dir d2 none [.file n none p2]]
        = .error ("duplicated basename is not allowed: " ++ n) := by
      unfold walkList
      rw [hd1]
      show walkList ⟨[n], cfg1⟩ [.dir d2 none [.file n none p2]]
        = .error ("duplicated basename is not allowed: " ++ n)
      unfold walkList
      rw [hd2]
    simp only [Load, loadConfig, hw, Bool.false_eq_true, if_false]
  · intro st name e parsed children
    exact ⟨rfl, rfl⟩
  · intro st n msg h1 hext hseen
    have hcond : ¬ (goExt n ≠ ".yaml" ∧ goExt n ≠ ".yml") := by simp [hext]
    simp only [walkNode, h1, Bool.false_eq_true, if_false, hcond, if_neg hseen]

/-- C8 witness: the spec's §8 example — a job-config directory holding
`a/x.yaml` and `b/x.yaml` makes the load fail with an error naming the
basename `x.yaml`. -/
theorem walk_dup_basename_fatal_walkerr_skipped_wit :
    Load "p" (.ok false) (.ok emptyConfig) none (.dir dupBasenameTree)
      = .error "duplicated basename is not allowed: x.yaml" :=
  walk_dup_basename_fatal_walkerr_skipped.1 "a" "b" "x.yaml" ⟨[]⟩ (.ok ⟨[]⟩)
    emptyConfig emptyConfig rfl rfl rfl rfl rfl

/-- C9: the defaulting pass is idempotent — applying `setDefaults` twice
yields the same `Configuration` as applying it once, covering the
config-updater maps and namespaces, external-plugin endpoints, the
Blunderbuss reviewer count, trigger `JoinOrgURL`, the SigMention regexp, the
CherryPickUnapproved defaults, and `RequireMatchingLabel` grace periods. -/
theorem setDefaults_idem (c : Configuration) :
    Configuration.setDefaults (Configuration.setDefaults c)
      = Configuration.setDefaults c := by
  unfold Configuration.setDefaults
  dsimp only
  congr 1
  · exact map_idem_of_idem _
      (fun kv => congrArg (fun x => (kv.1, x))
        (map_idem_of_idem _ defaultEndpoint_idem kv.2)) _
  · exact defaultBlunderbuss_idem _
  · exact defaultCherryPick_idem _
  · exact cu_SetDefaults_idem _
  · exact map_idem_of_idem _ defaultGracePeriod_idem _
  · exact defaultSigMention_idem _
  · exact map_idem_of_idem _ defaultTrigger_idem _

/-- C10 witness: a `Plugins` map and an `ExternalPlugins` map whose only
repetitions are inside one scope's own list record no duplicate error. -/
theorem intra_scope_repetition_no_dup_error_wit :
    duplicatedPluginErrors intraDupPlugins = []
    ∧ validateExternalPlugins intraDupExternal = none :=
  ⟨intra_scope_repetition_no_dup_error.1 intraDupPlugins (by decide),
   intra_scope_repetition_no_dup_error.2 intraDupExternal (by decide)⟩

end CiBot
